import Mathlib

/-!
Verification of the launcher / configuration layer of the open-builder
voxel engine (`src/main.cpp`, `src/common/common/network/endpoint.h`).

The C++ code is shallowly embedded: machine `int` is modelled as `Int`
with the 32-bit range made explicit where `std::stoi` can overflow,
streams are modelled as an explicit token list plus a fail flag, and the
launcher's side effects (thread launches, enet init/deinit) are recorded
as an explicit event trace.
-/

set_option autoImplicit false

namespace OpenBuilder

/-! ## C integer model -/

/-- Smallest value of a 32-bit C `int`. -/
def intMin : Int := -2147483648

/-- Largest value of a 32-bit C `int`. -/
def intMax : Int := 2147483647

/-- Numeric value of a list of decimal digit characters. -/
def natOfDigits (ds : List Char) : Nat :=
  ds.foldl (fun a c => a * 10 + (c.toNat - 48)) 0

/-- Result of `std::stoi`: a value, or one of the two exceptions it can
throw (`std::invalid_argument` when no digits can be converted,
`std::out_of_range` when the value does not fit in `int`). -/
inductive StoiResult where
  | ok (n : Int)
  | invalidArgument
  | outOfRange
  deriving DecidableEq

/-- `std::stoi`: skip leading whitespace, accept an optional sign and a
run of decimal digits. -/
def stoi (s : String) : StoiResult :=
  let cs := s.data.dropWhile Char.isWhitespace
  let signed : Option (Int × List Char) :=
    match cs with
    | '-' :: rest => some (-1, rest)
    | '+' :: rest => some (1, rest)
    | _ => some (1, cs)
  match signed with
  | some (sign, rest) =>
    let ds := rest.takeWhile Char.isDigit
    if ds = [] then .invalidArgument
    else
      let v : Int := sign * (natOfDigits ds : Int)
      if v < intMin ∨ intMax < v then .outOfRange else .ok v
  | none => .invalidArgument

/-! ## Configuration objects

`server_config.h` and `client_config.h` are not part of the available
sources; their fields are reconstructed from the uses in `main.cpp`
(`loadFromConfigFile`, `parseArgs`). -/

/-- Modelled from the spec: `ServerConfig` (header not in the sources);
the fields are exactly those `main.cpp` assigns, and the documented
default for `maxConnections` is 4. -/
structure ServerConfig where
  maxConnections : Int
  worldSize : Int
  worldHeight : Int
  deriving DecidableEq

/-- Modelled from the spec: `ClientConfig` (header not in the sources);
the fields are exactly those `main.cpp` assigns. -/
structure ClientConfig where
  fullScreen : Bool
  windowWidth : Int
  windowHeight : Int
  isFpsCapped : Bool
  fpsLimit : Int
  fov : Int
  skinName : String
  deriving DecidableEq

/-- The four launch modes of `main.cpp`. -/
inductive LaunchType where
  | Server
  | Client
  | Both
  | TwoPlayer
  deriving DecidableEq

/-- `Config` from `main.cpp`: holds config for both client and server;
`launchType` defaults to `TwoPlayer`. -/
structure Config where
  launchType : LaunchType
  serverOptions : ServerConfig
  clientOptions : ClientConfig
  deriving DecidableEq

/-- Modelled from the spec: default `ServerConfig` values (header not in
the sources). Only `maxConnections = 4` is documented; the world fields
are arbitrary and no theorem depends on them. -/
def defaultServerConfig : ServerConfig :=
  { maxConnections := 4, worldSize := 8, worldHeight := 4 }

/-- Modelled from the spec: default `ClientConfig` values (header not in
the sources). No theorem depends on the particular values. -/
def defaultClientConfig : ClientConfig :=
  { fullScreen := false
    windowWidth := 1280
    windowHeight := 720
    isFpsCapped := true
    fpsLimit := 60
    fov := 90
    skinName := "player" }

/-- A freshly constructed `Config` as at the top of `main`. -/
def defaultConfig : Config :=
  { launchType := .TwoPlayer
    serverOptions := defaultServerConfig
    clientOptions := defaultClientConfig }

/-! ## CLI argument parsing (`parseArgs`) -/

/-- The log line printed by the `catch` block in `parseArgs`. -/
def maxConnectionsFallbackMsg : String :=
  "Unable to set max connections, defaulting to 4."

/-- One iteration of the loop in `parseArgs`, acting on one
`(argument, param)` pair. `Except.error ()` models an exception that
escapes the function: the `catch` clause handles only
`std::invalid_argument`, so the `std::out_of_range` thrown by
`std::stoi` on a too-large numeric value propagates out.
Note that in the in-range case the validated value is never assigned to
`config.serverOptions.maxConnections` — the C++ body only reads it. -/
def parseArgsStep (config : Config) (log : List String)
    (option : String × String) : Except Unit (Config × List String) :=
  if option.1 = "-server" then
    let config := { config with launchType := .Server }
    match stoi option.2 with
    | .outOfRange => .error ()
    | .invalidArgument =>
      .ok ({ config with
               serverOptions :=
                 { config.serverOptions with maxConnections := 4 } },
           log ++ [maxConnectionsFallbackMsg])
    | .ok n =>
      if n < 2 ∨ 16 < n then
        .ok ({ config with
                 serverOptions :=
                   { config.serverOptions with maxConnections := 4 } },
             log ++ [maxConnectionsFallbackMsg])
      else
        .ok (config, log)
  else if option.1 = "-client" then
    .ok ({ config with launchType := .Client }, log)
  else if option.1 = "-skin" then
    .ok ({ config with
             clientOptions :=
               { config.clientOptions with skinName := option.2 } },
         log)
  else
    .ok (config, log)

/-- The loop of `parseArgs`, threading the config and the lines printed
to stdout through the remaining options. -/
def parseArgsFrom (config : Config) (log : List String) :
    List (String × String) → Except Unit (Config × List String)
  | [] => .ok (config, log)
  | option :: rest =>
    match parseArgsStep config log option with
    | .error e => .error e
    | .ok (config', log') => parseArgsFrom config' log' rest

/-- `parseArgs` from `main.cpp`: parses the CLI arguments, already
paired as `(argument, param)`. -/
def parseArgs (config : Config) (args : List (String × String)) :
    Except Unit (Config × List String) :=
  parseArgsFrom config [] args

/-- The check `argv[i][0] == \'-\'`: the first character of the argument
is a dash (an empty C string has `\'\\0\'` there, which is not a dash). -/
def firstCharIsDash (s : String) : Bool :=
  match s.data with
  | [] => false
  | ch :: _ => ch = '-'

/-- The pairing loop at the top of `main`: `argv[i]` (for `i ≥ 1`) is
paired with `argv[i+1]` when it starts with `-` and a successor
argument exists (`argc > i + 1`). `argv` here is the argument list
without the program name. -/
def buildArgs : List String → List (String × String)
  | [] => []
  | [_] => []
  | a :: b :: rest =>
    (if firstCharIsDash a then [(a, b)] else []) ++ buildArgs (b :: rest)

/-! ## Config file loading (`loadFromConfigFile`)

`std::ifstream` extraction is modelled token by token: `inFile >> line`
reads the next whitespace-delimited token, and a numeric extraction
consumes the numeric prefix of the next token, leaving any remaining
characters in the stream (they become the next token). A failed
extraction sets the fail flag, after which every extraction is a no-op,
so the `while (inFile >> line)` loop terminates. -/

/-- An input stream: the remaining whitespace-delimited tokens of the
file, plus the fail flag (`failbit`/`eofbit`). -/
structure InStream where
  tokens : List String
  failed : Bool
  deriving DecidableEq

/-- `inFile >> line` for a `std::string` target: pops the next token;
fails (without producing a value) at end of file or on an already
failed stream. -/
def readToken (st : InStream) : InStream × Option String :=
  if st.failed then (st, none)
  else
    match st.tokens with
    | [] => (⟨[], true⟩, none)
    | t :: ts => (⟨ts, false⟩, some t)

/-- The numeric part `num_get` accepts at the front of a token: an
optional sign followed by a non-empty digit run. Returns the value and
the unconsumed remainder of the token, or `none` when no digits can be
converted. -/
def intFromChars (cs : List Char) : Option (Int × List Char) :=
  match cs with
  | '-' :: rest =>
    if rest.takeWhile Char.isDigit = [] then none
    else some (-(natOfDigits (rest.takeWhile Char.isDigit) : Int),
               rest.dropWhile Char.isDigit)
  | '+' :: rest =>
    if rest.takeWhile Char.isDigit = [] then none
    else some ((natOfDigits (rest.takeWhile Char.isDigit) : Int),
               rest.dropWhile Char.isDigit)
  | _ =>
    if cs.takeWhile Char.isDigit = [] then none
    else some ((natOfDigits (cs.takeWhile Char.isDigit) : Int),
               cs.dropWhile Char.isDigit)

/-- `inFile >> x` for an `int` target. `some v` means the extraction
stored `v` into the target; `none` means the target is left unchanged
(stream already failed). A failed attempted extraction stores 0
(C++11 semantics); an out-of-range value stores the nearest bound and
sets the fail flag. -/
def readInt (st : InStream) : InStream × Option Int :=
  if st.failed then (st, none)
  else
    match st.tokens with
    | [] => (⟨[], true⟩, some 0)
    | t :: ts =>
      match intFromChars t.data with
      | none => (⟨ts, true⟩, some 0)
      | some (v, rest) =>
        let ts' := if rest = [] then ts else String.mk rest :: ts
        if v < intMin ∨ intMax < v then
          (⟨ts', true⟩, some (if v < 0 then intMin else intMax))
        else
          (⟨ts', false⟩, some v)

/-- `inFile >> b` for a `bool` target with the default `noboolalpha`
formatting: a numeric value is extracted; 0 stores `false`, 1 stores
`true`, and any other value stores `true` and sets the fail flag. -/
def readBool (st : InStream) : InStream × Option Bool :=
  match readInt st with
  | (st', none) => (st', none)
  | (st', some v) =>
    if v = 0 then (st', some false)
    else if v = 1 then (st', some true)
    else ({ st' with failed := true }, some true)

/-- The body of the `while (inFile >> line)` loop in
`loadFromConfigFile`: dispatch on the key just read and extract the
corresponding option value. -/
def loadStep (st : InStream) (c : Config) (line : String) :
    InStream × Config :=
  if line = "FULLSCREEN" then
    match readBool st with
    | (st', none) => (st', c)
    | (st', some v) =>
      (st', { c with clientOptions := { c.clientOptions with fullScreen := v } })
  else if line = "WIN_WIDTH" then
    match readInt st with
    | (st', none) => (st', c)
    | (st', some v) =>
      (st', { c with clientOptions := { c.clientOptions with windowWidth := v } })
  else if line = "WIN_HEIGHT" then
    match readInt st with
    | (st', none) => (st', c)
    | (st', some v) =>
      (st', { c with clientOptions := { c.clientOptions with windowHeight := v } })
  else if line = "FPS_CAPPED" then
    match readBool st with
    | (st', none) => (st', c)
    | (st', some v) =>
      (st', { c with clientOptions := { c.clientOptions with isFpsCapped := v } })
  else if line = "FPS" then
    match readInt st with
    | (st', none) => (st', c)
    | (st', some v) =>
      (st', { c with clientOptions := { c.clientOptions with fpsLimit := v } })
  else if line = "FOV" then
    match readInt st with
    | (st', none) => (st', c)
    | (st', some v) =>
      (st', { c with clientOptions := { c.clientOptions with fov := v } })
  else if line = "SKIN" then
    match readToken st with
    | (st', none) => (st', c)
    | (st', some v) =>
      (st', { c with clientOptions := { c.clientOptions with skinName := v } })
  else if line = "WORLD_HEIGHT" then
    match readInt st with
    | (st', none) => (st', c)
    | (st', some v) =>
      (st', { c with serverOptions := { c.serverOptions with worldHeight := v } })
  else if line = "WORLD_SIZE" then
    match readInt st with
    | (st', none) => (st', c)
    | (st', some v) =>
      (st', { c with serverOptions := { c.serverOptions with worldSize := v } })
  else
    (st, c)

/-- The `while (inFile >> line)` loop, fuel-indexed. Each iteration
strictly shrinks the measure `tokens.length + total characters`, so the
fuel chosen by `loadFromConfigFile` is never exhausted. -/
def loadLoop : Nat → InStream → Config → Config
  | 0, _, c => c
  | fuel + 1, st, c =>
    match readToken st with
    | (_, none) => c
    | (st', some line) =>
      match loadStep st' c line with
      | (st'', c') => loadLoop fuel st'' c'

/-- Fuel that strictly dominates the loop measure of `loadLoop`. -/
def streamFuel (tokens : List String) : Nat :=
  tokens.length + (tokens.map String.length).sum + 1

/-- `loadFromConfigFile` from `main.cpp`, acting on the
whitespace-delimited tokens of `config.txt` and the config object the
caller passes by reference. -/
def loadFromConfigFile (tokens : List String) (c : Config) : Config :=
  loadLoop (streamFuel tokens) ⟨tokens, false⟩ c

/-! ## Launcher (`launchServer`, `launchClient`, `launchBoth`,
`launchServerAnd2Players`, `main`)

The engines themselves (`runClientEngine`, `runServerEngine`) are
external collaborators; their outcomes are supplied by an `EngineEnv`.
The launcher's observable actions are recorded as an event trace. -/

/-- `EngineStatus` as consumed by the `switch` in `launchClient`. The
six named constructors are the cases `main.cpp` names; `Unknown` is
modelled from the spec: it stands for any unrecognized status value
(the enum's definition is not in the sources), which falls through the
`switch` to `exitFailure("Unknown error")`. -/
inductive EngineStatus where
  | Ok
  | Exit
  | ExitServerDisconnect
  | ExitServerTimeout
  | GLInitError
  | CouldNotConnect
  | Unknown
  deriving DecidableEq

/-- `EXIT_SUCCESS` from `<cstdlib>`. -/
def EXIT_SUCCESS : Int := 0

/-- `EXIT_FAILURE` from `<cstdlib>`. -/
def EXIT_FAILURE : Int := 1

/-- `exitSuccess` from `main.cpp`: prints a success message and returns
`EXIT_SUCCESS`. -/
def exitSuccess (_message : String) : Int := EXIT_SUCCESS

/-- `exitFailure` from `main.cpp`: prints an error message and returns
`EXIT_FAILURE`. -/
def exitFailure (_message : String) : Int := EXIT_FAILURE

/-- `launchClient` from `main.cpp`, as a function of the status the
external `runClientEngine(config)` call produced. -/
def launchClient (status : EngineStatus) : Int :=
  match status with
  | .Exit => exitSuccess "Normal exit"
  | .Ok => exitSuccess "Normal exit"
  | .ExitServerDisconnect =>
    exitSuccess "Client was disconnected from the server."
  | .ExitServerTimeout =>
    exitSuccess "Server timeout, client forcefully was disconnected."
  | .GLInitError => exitFailure "OpenGL failed to initilise correctly"
  | .CouldNotConnect =>
    exitFailure "Connection to server could not be established"
  | .Unknown => exitFailure "Unknown error"

/-- `launchServer` from `main.cpp`: runs the external
`runServerEngine(config, timeout)` (whose outcome `_serverOutcome` is a
`void` return — nothing of it is observed) and returns `EXIT_SUCCESS`
unconditionally. `timeoutMs` is the `sf::Time` argument in
milliseconds; the call sites pass 8000 (default `sf::seconds(8)`),
5000, or 20000. -/
def launchServer (_serverOutcome : EngineStatus) (_timeoutMs : Int) : Int :=
  EXIT_SUCCESS

/-- Observable launcher actions, in program order. -/
inductive Event where
  | enetInitialize
  | enetDeinitialize
  | serverLaunch (timeoutMs : Int)
  | clientLaunch
  deriving DecidableEq, BEq

/-- Outcomes of the external collaborators for one program run: whether
`enet_initialize()` returns 0, the tokens of `config.txt` (empty when
the file is absent), and the statuses the client engine runs produce. -/
structure EngineEnv where
  enetInitOk : Bool
  serverOutcome : EngineStatus
  configTokens : List String
  clientStatus : EngineStatus
  client2Status : EngineStatus

/-- `launchBoth` from `main.cpp`: a server thread with a 5000 ms
timeout, then the client on the main thread; the exit code is the
client's, the joined server thread's return value is discarded. -/
def launchBoth (env : EngineEnv) : Int × List Event :=
  let _serverExit := launchServer env.serverOutcome 5000
  let exit := launchClient env.clientStatus
  (exit, [Event.serverLaunch 5000, Event.clientLaunch])

/-- `launchServerAnd2Players` from `main.cpp`: a server thread with a
20000 ms timeout and a second client thread, then the primary client on
the main thread; the exit code is the primary client's, the joined
threads' return values are discarded. -/
def launchServerAnd2Players (env : EngineEnv) : Int × List Event :=
  let _serverExit := launchServer env.serverOutcome 20000
  let _client2Exit := launchClient env.client2Status
  let exit := launchClient env.clientStatus
  (exit, [Event.serverLaunch 20000, Event.clientLaunch, Event.clientLaunch])

/-- `main` from `main.cpp`: initialize enet (failing fast on error),
build the argument pairs, load `config.txt`, parse the CLI arguments,
and dispatch on the launch type. `none` models the uncaught
`std::out_of_range` escaping `parseArgs` and terminating the program.
Every case of the `switch` returns directly, so the trailing
`enet_deinitialize()` call in the C++ is unreachable and no
`Event.enetDeinitialize` is ever recorded. -/
def mainRun (env : EngineEnv) (argv : List String) :
    Option (Int × List Event) :=
  if env.enetInitOk = false then
    some (exitFailure "Failed to initialise enet", [Event.enetInitialize])
  else
    match parseArgs (loadFromConfigFile env.configTokens defaultConfig)

        (buildArgs argv) with
    | .error _ => none
    | .ok (config, _log) =>
      match config.launchType with
      | .Both =>
        some ((launchBoth env).1,
              Event.enetInitialize :: (launchBoth env).2)
      | .Server =>
        some (launchServer env.serverOutcome 8000,
              [Event.enetInitialize, Event.serverLaunch 8000])
      | .Client =>
        some (launchClient env.clientStatus,
              [Event.enetInitialize, Event.clientLaunch])
      | .TwoPlayer =>
        some ((launchServerAnd2Players env).1,
              Event.enetInitialize :: (launchServerAnd2Players env).2)

/-! ## Endpoint (`endpoint.h`) -/

/-- `sf::IpAddress`: stores the numeric 32-bit address; `toInteger()`
returns it. -/
structure IpAddress where
  addressInt : Nat
  deriving DecidableEq

/-- Splits a character list at the dots, keeping empty groups. -/
def splitOnDot : List Char → List (List Char)
  | [] => [[]]
  | '.' :: rest => [] :: splitOnDot rest
  | c :: rest =>
    match splitOnDot rest with
    | [] => [[c]]
    | g :: gs => (c :: g) :: gs

/-- One dotted-quad component: a non-empty run of decimal digits,
reduced mod 256. -/
def octetValue (cs : List Char) : Option Nat :=
  if cs ≠ [] ∧ cs.all Char.isDigit then some (natOfDigits cs % 256)
  else none

/-- Modelled from `sf::IpAddress(const std::string&)` restricted to
dotted-decimal forms: four dot-separated decimal components are packed
into a 32-bit value; any other shape resolves to `sf::IpAddress::None`
(numeric value 0). -/
def IpAddress.fromString (s : String) : IpAddress :=
  match (splitOnDot s.data).map octetValue with
  | [some a, some b, some c, some d] =>
    ⟨((a * 256 + b) * 256 + c) * 256 + d⟩
  | _ => ⟨0⟩

/-- `sf::IpAddress::toInteger()`. -/
def IpAddress.toInteger (ip : IpAddress) : Nat := ip.addressInt

/-- `Endpoint` from `endpoint.h`: an address and a `port_t` port. -/
structure Endpoint where
  address : IpAddress
  port : Nat
  deriving DecidableEq

/-- `operator==(const Endpoint&, const Endpoint&)` from `endpoint.h`. -/
def endpointEq (left right : Endpoint) : Bool :=
  left.port == right.port &&
    left.address.toInteger == right.address.toInteger

/-! ## Helper lemmas about the config-file loader -/

/-- A key is absent from a token stream when it is not a suffix of any
token; every token the stream can ever produce (including remainders of
partially consumed numeric tokens) is a suffix of an original token, so
this is the invariant the loop maintains. In particular it holds
whenever the key does not occur anywhere in the file text. -/
def KeyAbsent (k : String) (ts : List String) : Prop :=
  ∀ t ∈ ts, ¬ (k.data <:+ t.data)

/-- Token lists produced from `us` by extraction: every token is a
suffix of some token of `us`. -/
def DerivedTokens (ts us : List String) : Prop :=
  ∀ t ∈ ts, ∃ u ∈ us, t.data <:+ u.data

lemma KeyAbsent.of_derived {k : String} {ts us : List String}
    (hk : KeyAbsent k us) (hd : DerivedTokens ts us) : KeyAbsent k ts := by
  intro t ht hsuf
  obtain ⟨u, hu, htu⟩ := hd t ht
  exact hk u hu (hsuf.trans htu)

lemma derivedTokens_refl (ts : List String) : DerivedTokens ts ts :=
  fun t ht => ⟨t, ht, List.suffix_refl t.data⟩

lemma derivedTokens_of_sub {ts us : List String} (h : ∀ t ∈ ts, t ∈ us) :
    DerivedTokens ts us :=
  fun t ht => ⟨t, h t ht, List.suffix_refl t.data⟩

lemma readToken_derived (st : InStream) :
    DerivedTokens (readToken st).1.tokens st.tokens := by
  unfold readToken
  split
  · exact derivedTokens_refl st.tokens
  · split
    · rename_i heq
      exact fun t ht => absurd ht (by simp)
    · rename_i heq
      refine derivedTokens_of_sub ?_
      intro t ht
      rw [heq]
      exact List.mem_cons_of_mem _ ht

lemma intFromChars_rest_suffix {cs : List Char} {v : Int} {rest : List Char}
    (h : intFromChars cs = some (v, rest)) : rest <:+ cs := by
  unfold intFromChars at h
  split at h
  · split at h
    · exact absurd h (by simp)
    · cases h
      exact (List.dropWhile_suffix _).trans (List.suffix_cons _ _)
  · split at h
    · exact absurd h (by simp)
    · cases h
      exact (List.dropWhile_suffix _).trans (List.suffix_cons _ _)
  · split at h
    · exact absurd h (by simp)
    · cases h
      exact List.dropWhile_suffix _

lemma readInt_derived (st : InStream) :
    DerivedTokens (readInt st).1.tokens st.tokens := by
  unfold readInt
  split
  · exact derivedTokens_refl st.tokens
  · split
    · exact fun t ht => absurd ht (by simp)
    · rename_i t ts heq
      split
      · refine derivedTokens_of_sub ?_
        intro x hx
        rw [heq]
        exact List.mem_cons_of_mem _ hx
      · rename_i v rest hparse
        have hrest : rest <:+ t.data := intFromChars_rest_suffix hparse
        simp only
        split <;>
        · intro x hx
          simp only at hx
          by_cases hr : rest = []
          · refine ⟨x, ?_, List.suffix_refl _⟩
            rw [heq]
            simp only [hr, if_pos rfl] at hx
            exact List.mem_cons_of_mem _ hx
          · simp only [if_neg hr] at hx
            rcases List.mem_cons.mp hx with h | h
            · refine ⟨t, ?_, ?_⟩
              · rw [heq]
                exact List.mem_cons_self ..
              · rw [h]
                exact hrest
            · refine ⟨x, ?_, List.suffix_refl _⟩
              rw [heq]
              exact List.mem_cons_of_mem _ h

lemma readBool_derived (st : InStream) :
    DerivedTokens (readBool st).1.tokens st.tokens := by
  have h := readInt_derived st
  unfold readBool
  split
  · rename_i st' heq
    rw [heq] at h
    exact h
  · rename_i st' v heq
    rw [heq] at h
    split
    · exact h
    · split
      · exact h
      · exact h

lemma loadStep_derived (st : InStream) (c : Config) (line : String) :
    DerivedTokens (loadStep st c line).1.tokens st.tokens := by
  unfold loadStep
  split_ifs <;>
    first
      | exact derivedTokens_refl st.tokens
      | (have h := readBool_derived st
         rcases hr : readBool st with ⟨st', v⟩
         rw [hr] at h
         cases v <;> exact h)
      | (have h := readInt_derived st
         rcases hr : readInt st with ⟨st', v⟩
         rw [hr] at h
         cases v <;> exact h)
      | (have h := readToken_derived st
         rcases hr : readToken st with ⟨st', v⟩
         rw [hr] at h
         cases v <;> exact h)

lemma readToken_some_mem {st st1 : InStream} {line : String}
    (h : readToken st = (st1, some line)) : line ∈ st.tokens := by
  unfold readToken at h
  split at h
  · exact absurd h (by simp)
  · split at h
    · exact absurd h (by simp)
    · rename_i t ts heq
      rw [heq]
      obtain ⟨-, h2⟩ := Prod.mk.injEq .. ▸ h
      cases h2
      exact List.mem_cons_self ..

lemma loadLoop_failed (fuel : Nat) (st : InStream) (c : Config)
    (h : st.failed = true) : loadLoop fuel st c = c := by
  cases fuel with
  | zero => rfl
  | succ n => simp [loadLoop, readToken, h]

lemma loadLoop_key_preserve {α : Type} (g : Config → α) (k : String)
    (hstep : ∀ st c line, line ≠ k → g (loadStep st c line).2 = g c) :
    ∀ fuel st c, KeyAbsent k st.tokens → g (loadLoop fuel st c) = g c := by
  intro fuel
  induction fuel with
  | zero => intro st c _; rfl
  | succ n ih =>
    intro st c habs
    simp only [loadLoop]
    rcases ht : readToken st with ⟨st1, o⟩
    cases o with
    | none => rfl
    | some line =>
      have hline : line ∈ st.tokens := readToken_some_mem ht
      have hne : line ≠ k := by
        intro he
        exact habs line hline (by rw [he])
      have habs1 : KeyAbsent k st1.tokens := by
        have hd := readToken_derived st
        rw [ht] at hd
        exact habs.of_derived hd
      have habs2 : KeyAbsent k (loadStep st1 c line).1.tokens :=
        habs1.of_derived (loadStep_derived st1 c line)
      show g (loadLoop n (loadStep st1 c line).1 (loadStep st1 c line).2) = g c
      rw [ih _ _ habs2, hstep st1 c line hne]

lemma loadLoop_config_invariant {α : Type} (g : Config → α)
    (hstep : ∀ st c line, g (loadStep st c line).2 = g c) :
    ∀ fuel st c, g (loadLoop fuel st c) = g c := by
  intro fuel
  induction fuel with
  | zero => intro st c; rfl
  | succ n ih =>
    intro st c
    simp only [loadLoop]
    rcases ht : readToken st with ⟨st1, o⟩
    cases o with
    | none => rfl
    | some line =>
      show g (loadLoop n (loadStep st1 c line).1 (loadStep st1 c line).2) = g c
      rw [ih _ _, hstep st1 c line]

lemma loadStep_keeps_launchType (st : InStream) (c : Config) (line : String) :
    (loadStep st c line).2.launchType = c.launchType := by
  unfold loadStep
  split_ifs <;>
    first
      | rfl
      | (rcases hr : readBool st with ⟨st', v⟩; cases v <;> rfl)
      | (rcases hr : readInt st with ⟨st', v⟩; cases v <;> rfl)
      | (rcases hr : readToken st with ⟨st', v⟩; cases v <;> rfl)

lemma loadFromConfigFile_launchType (tokens : List String) (c : Config) :
    (loadFromConfigFile tokens c).launchType = c.launchType :=
  loadLoop_config_invariant Config.launchType loadStep_keeps_launchType
    (streamFuel tokens) ⟨tokens, false⟩ c

lemma loadStep_keeps_fullScreen {st : InStream} {c : Config} {line : String}
    (h : line ≠ "FULLSCREEN") :
    (loadStep st c line).2.clientOptions.fullScreen = c.clientOptions.fullScreen := by
  unfold loadStep
  split_ifs <;>
    first
      | exact absurd ‹line = "FULLSCREEN"› h
      | rfl
      | (rcases hr : readBool st with ⟨st', v⟩; cases v <;> rfl)
      | (rcases hr : readInt st with ⟨st', v⟩; cases v <;> rfl)
      | (rcases hr : readToken st with ⟨st', v⟩; cases v <;> rfl)

lemma loadFromConfigFile_keeps_fullScreen (tokens : List String) (c : Config)
    (h : KeyAbsent "FULLSCREEN" tokens) :
    (loadFromConfigFile tokens c).clientOptions.fullScreen = c.clientOptions.fullScreen :=
  loadLoop_key_preserve (fun c => c.clientOptions.fullScreen) "FULLSCREEN"
    (fun _ _ _ hne => loadStep_keeps_fullScreen hne) _ _ _ h

lemma loadStep_keeps_windowWidth {st : InStream} {c : Config} {line : String}
    (h : line ≠ "WIN_WIDTH") :
    (loadStep st c line).2.clientOptions.windowWidth = c.clientOptions.windowWidth := by
  unfold loadStep
  split_ifs <;>
    first
      | exact absurd ‹line = "WIN_WIDTH"› h
      | rfl
      | (rcases hr : readBool st with ⟨st', v⟩; cases v <;> rfl)
      | (rcases hr : readInt st with ⟨st', v⟩; cases v <;> rfl)
      | (rcases hr : readToken st with ⟨st', v⟩; cases v <;> rfl)

lemma loadFromConfigFile_keeps_windowWidth (tokens : List String) (c : Config)
    (h : KeyAbsent "WIN_WIDTH" tokens) :
    (loadFromConfigFile tokens c).clientOptions.windowWidth = c.clientOptions.windowWidth :=
  loadLoop_key_preserve (fun c => c.clientOptions.windowWidth) "WIN_WIDTH"
    (fun _ _ _ hne => loadStep_keeps_windowWidth hne) _ _ _ h

lemma loadStep_keeps_windowHeight {st : InStream} {c : Config} {line : String}
    (h : line ≠ "WIN_HEIGHT") :
    (loadStep st c line).2.clientOptions.windowHeight = c.clientOptions.windowHeight := by
  unfold loadStep
  split_ifs <;>
    first
      | exact absurd ‹line = "WIN_HEIGHT"› h
      | rfl
      | (rcases hr : readBool st with ⟨st', v⟩; cases v <;> rfl)
      | (rcases hr : readInt st with ⟨st', v⟩; cases v <;> rfl)
      | (rcases hr : readToken st with ⟨st', v⟩; cases v <;> rfl)

lemma loadFromConfigFile_keeps_windowHeight (tokens : List String) (c : Config)
    (h : KeyAbsent "WIN_HEIGHT" tokens) :
    (loadFromConfigFile tokens c).clientOptions.windowHeight = c.clientOptions.windowHeight :=
  loadLoop_key_preserve (fun c => c.clientOptions.windowHeight) "WIN_HEIGHT"
    (fun _ _ _ hne => loadStep_keeps_windowHeight hne) _ _ _ h

lemma loadStep_keeps_isFpsCapped {st : InStream} {c : Config} {line : String}
    (h : line ≠ "FPS_CAPPED") :
    (loadStep st c line).2.clientOptions.isFpsCapped = c.clientOptions.isFpsCapped := by
  unfold loadStep
  split_ifs <;>
    first
      | exact absurd ‹line = "FPS_CAPPED"› h
      | rfl
      | (rcases hr : readBool st with ⟨st', v⟩; cases v <;> rfl)
      | (rcases hr : readInt st with ⟨st', v⟩; cases v <;> rfl)
      | (rcases hr : readToken st with ⟨st', v⟩; cases v <;> rfl)

lemma loadFromConfigFile_keeps_isFpsCapped (tokens : List String) (c : Config)
    (h : KeyAbsent "FPS_CAPPED" tokens) :
    (loadFromConfigFile tokens c).clientOptions.isFpsCapped = c.clientOptions.isFpsCapped :=
  loadLoop_key_preserve (fun c => c.clientOptions.isFpsCapped) "FPS_CAPPED"
    (fun _ _ _ hne => loadStep_keeps_isFpsCapped hne) _ _ _ h

lemma loadStep_keeps_fpsLimit {st : InStream} {c : Config} {line : String}
    (h : line ≠ "FPS") :
    (loadStep st c line).2.clientOptions.fpsLimit = c.clientOptions.fpsLimit := by
  unfold loadStep
  split_ifs <;>
    first
      | exact absurd ‹line = "FPS"› h
      | rfl
      | (rcases hr : readBool st with ⟨st', v⟩; cases v <;> rfl)
      | (rcases hr : readInt st with ⟨st', v⟩; cases v <;> rfl)
      | (rcases hr : readToken st with ⟨st', v⟩; cases v <;> rfl)

lemma loadFromConfigFile_keeps_fpsLimit (tokens : List String) (c : Config)
    (h : KeyAbsent "FPS" tokens) :
    (loadFromConfigFile tokens c).clientOptions.fpsLimit = c.clientOptions.fpsLimit :=
  loadLoop_key_preserve (fun c => c.clientOptions.fpsLimit) "FPS"
    (fun _ _ _ hne => loadStep_keeps_fpsLimit hne) _ _ _ h

lemma loadStep_keeps_fov {st : InStream} {c : Config} {line : String}
    (h : line ≠ "FOV") :
    (loadStep st c line).2.clientOptions.fov = c.clientOptions.fov := by
  unfold loadStep
  split_ifs <;>
    first
      | exact absurd ‹line = "FOV"› h
      | rfl
      | (rcases hr : readBool st with ⟨st', v⟩; cases v <;> rfl)
      | (rcases hr : readInt st with ⟨st', v⟩; cases v <;> rfl)
      | (rcases hr : readToken st with ⟨st', v⟩; cases v <;> rfl)

lemma loadFromConfigFile_keeps_fov (tokens : List String) (c : Config)
    (h : KeyAbsent "FOV" tokens) :
    (loadFromConfigFile tokens c).clientOptions.fov = c.clientOptions.fov :=
  loadLoop_key_preserve (fun c => c.clientOptions.fov) "FOV"
    (fun _ _ _ hne => loadStep_keeps_fov hne) _ _ _ h

lemma loadStep_keeps_skinName {st : InStream} {c : Config} {line : String}
    (h : line ≠ "SKIN") :
    (loadStep st c line).2.clientOptions.skinName = c.clientOptions.skinName := by
  unfold loadStep
  split_ifs <;>
    first
      | exact absurd ‹line = "SKIN"› h
      | rfl
      | (rcases hr : readBool st with ⟨st', v⟩; cases v <;> rfl)
      | (rcases hr : readInt st with ⟨st', v⟩; cases v <;> rfl)
      | (rcases hr : readToken st with ⟨st', v⟩; cases v <;> rfl)

lemma loadFromConfigFile_keeps_skinName (tokens : List String) (c : Config)
    (h : KeyAbsent "SKIN" tokens) :
    (loadFromConfigFile tokens c).clientOptions.skinName = c.clientOptions.skinName :=
  loadLoop_key_preserve (fun c => c.clientOptions.skinName) "SKIN"
    (fun _ _ _ hne => loadStep_keeps_skinName hne) _ _ _ h

lemma loadStep_keeps_worldHeight {st : InStream} {c : Config} {line : String}
    (h : line ≠ "WORLD_HEIGHT") :
    (loadStep st c line).2.serverOptions.worldHeight = c.serverOptions.worldHeight := by
  unfold loadStep
  split_ifs <;>
    first
      | exact absurd ‹line = "WORLD_HEIGHT"› h
      | rfl
      | (rcases hr : readBool st with ⟨st', v⟩; cases v <;> rfl)
      | (rcases hr : readInt st with ⟨st', v⟩; cases v <;> rfl)
      | (rcases hr : readToken st with ⟨st', v⟩; cases v <;> rfl)

lemma loadFromConfigFile_keeps_worldHeight (tokens : List String) (c : Config)
    (h : KeyAbsent "WORLD_HEIGHT" tokens) :
    (loadFromConfigFile tokens c).serverOptions.worldHeight = c.serverOptions.worldHeight :=
  loadLoop_key_preserve (fun c => c.serverOptions.worldHeight) "WORLD_HEIGHT"
    (fun _ _ _ hne => loadStep_keeps_worldHeight hne) _ _ _ h

lemma loadStep_keeps_worldSize {st : InStream} {c : Config} {line : String}
    (h : line ≠ "WORLD_SIZE") :
    (loadStep st c line).2.serverOptions.worldSize = c.serverOptions.worldSize := by
  unfold loadStep
  split_ifs <;>
    first
      | exact absurd ‹line = "WORLD_SIZE"› h
      | rfl
      | (rcases hr : readBool st with ⟨st', v⟩; cases v <;> rfl)
      | (rcases hr : readInt st with ⟨st', v⟩; cases v <;> rfl)
      | (rcases hr : readToken st with ⟨st', v⟩; cases v <;> rfl)

lemma loadFromConfigFile_keeps_worldSize (tokens : List String) (c : Config)
    (h : KeyAbsent "WORLD_SIZE" tokens) :
    (loadFromConfigFile tokens c).serverOptions.worldSize = c.serverOptions.worldSize :=
  loadLoop_key_preserve (fun c => c.serverOptions.worldSize) "WORLD_SIZE"
    (fun _ _ _ hne => loadStep_keeps_worldSize hne) _ _ _ h

/-! ## Helper lemmas about the CLI parser -/

lemma buildArgs_mem : ∀ (argv : List String) (p : String × String),
    p ∈ buildArgs argv → p.1 ∈ argv := by
  intro argv
  induction argv with
  | nil => intro p h; simp [buildArgs] at h
  | cons a tail ih =>
    intro p h
    cases tail with
    | nil => simp [buildArgs] at h
    | cons b rest =>
      simp only [buildArgs] at h
      rcases List.mem_append.mp h with h1 | h2
      · split at h1
        · rcases List.mem_singleton.mp h1 with rfl
          exact List.mem_cons_self ..
        · simp at h1
      · exact List.mem_cons_of_mem _ (ih p h2)

lemma parseArgsFrom_append (l1 l2 : List (String × String)) :
    ∀ c log, parseArgsFrom c log (l1 ++ l2) =
      match parseArgsFrom c log l1 with
      | .error e => .error e
      | .ok (c', log') => parseArgsFrom c' log' l2 := by
  induction l1 with
  | nil => intro c log; rfl
  | cons p rest ih =>
    intro c log
    simp only [List.cons_append, parseArgsFrom]
    rcases hp : parseArgsStep c log p with e | ⟨c1, log1⟩
    · rfl
    · exact ih c1 log1

lemma parseArgsFrom_keeps_client : ∀ (args : List (String × String)),
    (∀ p ∈ args, p.1 ≠ "-server") →
    ∀ c log r, c.launchType = .Client →
      parseArgsFrom c log args = .ok r → r.1.launchType = .Client := by
  intro args
  induction args with
  | nil =>
    intro _ c log r hc h
    cases h
    exact hc
  | cons p rest ih =>
    intro hno c log r hc h
    have hps : p.1 ≠ "-server" := hno p (List.mem_cons_self ..)
    have hrest : ∀ q ∈ rest, q.1 ≠ "-server" :=
      fun q hq => hno q (List.mem_cons_of_mem _ hq)
    simp only [parseArgsFrom, parseArgsStep, if_neg hps] at h
    by_cases hc1 : p.1 = "-client"
    · simp only [if_pos hc1] at h
      exact ih hrest _ _ _ rfl h
    · simp only [if_neg hc1] at h
      by_cases hk : p.1 = "-skin"
      · simp only [if_pos hk] at h
        exact ih hrest
          { c with clientOptions := { c.clientOptions with skinName := p.2 } }
          _ _ hc h
      · simp only [if_neg hk] at h
        exact ih hrest _ _ _ hc h

lemma parseArgsFrom_no_flags : ∀ (args : List (String × String)),
    (∀ p ∈ args, p.1 ≠ "-server" ∧ p.1 ≠ "-client") →
    ∀ c log, ∃ c' log', parseArgsFrom c log args = .ok (c', log') ∧
      c'.launchType = c.launchType := by
  intro args
  induction args with
  | nil => intro _ c log; exact ⟨c, log, rfl, rfl⟩
  | cons p rest ih =>
    intro hno c log
    obtain ⟨hs, hc⟩ := hno p (List.mem_cons_self ..)
    have hrest : ∀ q ∈ rest, q.1 ≠ "-server" ∧ q.1 ≠ "-client" :=
      fun q hq => hno q (List.mem_cons_of_mem _ hq)
    by_cases hk : p.1 = "-skin"
    · obtain ⟨c', log', h1, h2⟩ := ih hrest
        { c with clientOptions :=
            { c.clientOptions with skinName := p.2 } } log
      refine ⟨c', log', ?_, h2⟩
      simp only [parseArgsFrom, parseArgsStep, if_neg hs, if_neg hc,
        if_pos hk]
      exact h1
    · obtain ⟨c', log', h1, h2⟩ := ih hrest c log
      refine ⟨c', log', ?_, h2⟩
      simp only [parseArgsFrom, parseArgsStep, if_neg hs, if_neg hc,
        if_neg hk]
      exact h1

/-- Every `-server` parameter is either non-numeric or has a numeric
value representable in a 32-bit `int`, so `std::stoi` never throws the
uncaught `std::out_of_range`. -/
def ServerArgsRepresentable (args : List (String × String)) : Prop :=
  ∀ p ∈ args, p.1 = "-server" → stoi p.2 ≠ StoiResult.outOfRange

/-- A `-server` parameter the C++ rejects with a locally caught
`std::invalid_argument`: non-numeric, or numeric with value below 2 or
above 16. -/
def ServerCountRejected (s : String) : Prop :=
  stoi s = .invalidArgument ∨ ∃ n, stoi s = .ok n ∧ (n < 2 ∨ 16 < n)

lemma parseArgsFrom_safe : ∀ (args : List (String × String)),
    ServerArgsRepresentable args →
    ∀ c log, ∃ c' log',
      parseArgsFrom c log args = .ok (c', log') ∧
      ((c.serverOptions.maxConnections = 4 ∧ log ≠ []) →
        c'.serverOptions.maxConnections = 4 ∧ log' ≠ []) ∧
      ((∃ p ∈ args, p.1 = "-server" ∧ ServerCountRejected p.2) →
        c'.serverOptions.maxConnections = 4 ∧ log' ≠ []) := by
  intro args
  induction args with
  | nil =>
    intro _ c log
    refine ⟨c, log, rfl, fun h => h, fun h => ?_⟩
    obtain ⟨p, hp, -⟩ := h
    simp at hp
  | cons p rest ih =>
    intro hrep c log
    have hrest : ServerArgsRepresentable rest :=
      fun q hq => hrep q (List.mem_cons_of_mem _ hq)
    by_cases hs : p.1 = "-server"
    · cases hst : stoi p.2 with
      | ok n =>
        by_cases hn : n < 2 ∨ 16 < n
        · obtain ⟨c', log', h1, h2, h3⟩ := ih hrest
            { c with launchType := .Server
                     serverOptions :=
                       { c.serverOptions with maxConnections := 4 } }
            (log ++ [maxConnectionsFallbackMsg])
          refine ⟨c', log', ?_, ?_, ?_⟩
          · simp only [parseArgsFrom, parseArgsStep, if_pos hs, hst,
              if_pos hn]
            exact h1
          · intro _
            exact h2 ⟨rfl, by simp⟩
          · intro _
            exact h2 ⟨rfl, by simp⟩
        · obtain ⟨c', log', h1, h2, h3⟩ := ih hrest
            { c with launchType := .Server } log
          refine ⟨c', log', ?_, ?_, ?_⟩
          · simp only [parseArgsFrom, parseArgsStep, if_pos hs, hst,
              if_neg hn]
            exact h1
          · exact h2
          · intro hbad
            obtain ⟨q, hq, hq1, hq2⟩ := hbad
            rcases List.mem_cons.mp hq with rfl | hq'
            · rcases hq2 with hbad1 | ⟨m, hm, hmrange⟩
              · rw [hst] at hbad1
                exact absurd hbad1 (by simp)
              · rw [hst] at hm
                injection hm with hnm
                rw [← hnm] at hmrange
                exact absurd hmrange hn
            · exact h3 ⟨q, hq', hq1, hq2⟩
      | invalidArgument =>
        obtain ⟨c', log', h1, h2, h3⟩ := ih hrest
          { c with launchType := .Server
                   serverOptions :=
                     { c.serverOptions with maxConnections := 4 } }
          (log ++ [maxConnectionsFallbackMsg])
        refine ⟨c', log', ?_, ?_, ?_⟩
        · simp only [parseArgsFrom, parseArgsStep, if_pos hs, hst]
          exact h1
        · intro _
          exact h2 ⟨rfl, by simp⟩
        · intro _
          exact h2 ⟨rfl, by simp⟩
      | outOfRange =>
        exact absurd hst (hrep p (List.mem_cons_self ..) hs)
    · by_cases hc1 : p.1 = "-client"
      · obtain ⟨c', log', h1, h2, h3⟩ := ih hrest
          { c with launchType := .Client } log
        refine ⟨c', log', ?_, ?_, ?_⟩
        · simp only [parseArgsFrom, parseArgsStep, if_neg hs, if_pos hc1]
          exact h1
        · exact h2
        · intro hbad
          obtain ⟨q, hq, hq1, hq2⟩ := hbad
          rcases List.mem_cons.mp hq with rfl | hq'
          · exact absurd hq1 hs
          · exact h3 ⟨q, hq', hq1, hq2⟩
      · by_cases hk : p.1 = "-skin"
        · obtain ⟨c', log', h1, h2, h3⟩ := ih hrest
            { c with clientOptions :=
                { c.clientOptions with skinName := p.2 } } log
          refine ⟨c', log', ?_, ?_, ?_⟩
          · simp only [parseArgsFrom, parseArgsStep, if_neg hs,
              if_neg hc1, if_pos hk]
            exact h1
          · exact h2
          · intro hbad
            obtain ⟨q, hq, hq1, hq2⟩ := hbad
            rcases List.mem_cons.mp hq with rfl | hq'
            · exact absurd hq1 hs
            · exact h3 ⟨q, hq', hq1, hq2⟩
        · obtain ⟨c', log', h1, h2, h3⟩ := ih hrest c log
          refine ⟨c', log', ?_, ?_, ?_⟩
          · simp only [parseArgsFrom, parseArgsStep, if_neg hs,
              if_neg hc1, if_neg hk]
            exact h1
          · exact h2
          · intro hbad
            obtain ⟨q, hq, hq1, hq2⟩ := hbad
            rcases List.mem_cons.mp hq with rfl | hq'
            · exact absurd hq1 hs
            · exact h3 ⟨q, hq', hq1, hq2⟩

lemma loadLoop_succ (fuel : Nat) (st : InStream) (c : Config) :
    loadLoop (fuel + 1) st c =
      match readToken st with
      | (_, none) => c
      | (st', some line) =>
        match loadStep st' c line with
        | (st'', c') => loadLoop fuel st'' c' := rfl

lemma loadLoop_win_width_fail (fuel : Nat) (v : String) (rest : List String)
    (c : Config) (hv : intFromChars v.data = none) :
    loadLoop (fuel + 1) ⟨"WIN_WIDTH" :: v :: rest, false⟩ c =
      { c with clientOptions :=
          { c.clientOptions with windowWidth := 0 } } := by
  rw [loadLoop_succ]
  show (match loadStep ⟨v :: rest, false⟩ c "WIN_WIDTH" with
        | (st'', c') => loadLoop fuel st'' c') = _
  have hread : readInt ⟨v :: rest, false⟩ = (⟨rest, true⟩, some 0) := by
    unfold readInt
    simp [hv]
  have hstep : loadStep ⟨v :: rest, false⟩ c "WIN_WIDTH" =
      (⟨rest, true⟩,
        { c with clientOptions :=
            { c.clientOptions with windowWidth := 0 } }) := by
    unfold loadStep
    simp [hread]
  rw [hstep]
  exact loadLoop_failed fuel _ _ rfl

/-! ## The claims -/

/-- C1: the claim says `-server 8` yields `maxConnections == 8`. The
code sets the launch type to `Server` and validates the count, but the
validated value is never assigned to the config: with `-server 8` the
parse succeeds, prints nothing, and `maxConnections` keeps its default
value 4, not 8. -/
theorem C1_server_in_range_count_not_stored :
    ∃ c, parseArgs defaultConfig [("-server", "8")] = .ok (c, []) ∧
      c.launchType = LaunchType.Server ∧
      c.serverOptions.maxConnections =
        defaultConfig.serverOptions.maxConnections ∧
      c.serverOptions.maxConnections ≠ 8 :=
  ⟨{ defaultConfig with launchType := .Server }, rfl, rfl, rfl, by decide⟩

/-- C2 counterexample: `-server 99999999999` is numeric and out of
range (above 16), yet parsing does not recover: `std::stoi` throws
`std::out_of_range`, which the `catch (std::invalid_argument&)` clause
does not catch, and the program aborts. -/
theorem C2_huge_server_count_aborts :
    parseArgs defaultConfig [("-server", "99999999999")] = .error () := rfl

/-- C2 (amended): for every argument list whose `-server` parameters,
when numeric, fit in a 32-bit `int`, if some `-server <N>` has N
non-numeric or out of range (N < 2 or N > 16), parsing recovers
locally: it returns normally with `maxConnections = 4` and a non-empty
log of fallback reasons. -/
theorem C2_bad_server_count_recovers (args : List (String × String))
    (c : Config) (hrep : ServerArgsRepresentable args)
    (hbad : ∃ p ∈ args, p.1 = "-server" ∧ ServerCountRejected p.2) :
    ∃ c' log, parseArgs c args = .ok (c', log) ∧
      c'.serverOptions.maxConnections = 4 ∧ log ≠ [] := by
  obtain ⟨c', log', h1, h2, h3⟩ := parseArgsFrom_safe args hrep c []
  exact ⟨c', log', h1, h3 hbad⟩

/-- C2 witness: `-server 30` (numeric, above 16) recovers with
`maxConnections = 4` and a logged reason. -/
theorem C2_bad_server_count_recovers_witness :
    ∃ c' log, parseArgs defaultConfig [("-server", "30")] = .ok (c', log) ∧
      c'.serverOptions.maxConnections = 4 ∧ log ≠ [] :=
  C2_bad_server_count_recovers [("-server", "30")] defaultConfig
    (by unfold ServerArgsRepresentable; decide)
    ⟨("-server", "30"), by decide, rfl, Or.inr ⟨30, by decide, by decide⟩⟩

/-- C3: the client launcher maps `Ok`, `Exit`, `ExitServerDisconnect`
and `ExitServerTimeout` to exit code 0 and `GLInitError`,
`CouldNotConnect` and any unrecognized status to exit code 1; a failed
`enet_initialize()` makes `main` return exit code 1 immediately. -/
theorem C3_terminal_status_exit_codes :
    (∀ s : EngineStatus,
      launchClient s =
        if s = .Ok ∨ s = .Exit ∨ s = .ExitServerDisconnect ∨
            s = .ExitServerTimeout then 0 else 1) ∧
    (∀ (o s1 s2 : EngineStatus) (cfg argv : List String),
      mainRun ⟨false, o, cfg, s1, s2⟩ argv =
        some (1, [Event.enetInitialize])) := by
  constructor
  · intro s
    cases s <;> rfl
  · intro o s1 s2 cfg argv
    rfl

/-- C4: the claim says the network-library context is released exactly
once at shutdown on every exit path. In the code every `switch` case in
`main` returns before the trailing `enet_deinitialize()` call, so on
every completed run the context is initialized once (first event) but
released zero times, not once. -/
theorem C4_enet_init_once_released_never (env : EngineEnv)
    (argv : List String) (r : Int × List Event)
    (h : mainRun env argv = some r) :
    r.2.head? = some Event.enetInitialize ∧
    r.2.count Event.enetInitialize = 1 ∧
    r.2.count Event.enetDeinitialize = 0 := by
  unfold mainRun at h
  split at h
  · cases h
    exact ⟨rfl, rfl, rfl⟩
  · split at h
    · cases h
    · split at h <;> (cases h; exact ⟨rfl, rfl, rfl⟩)

/-- C4 witness: a concrete default-mode run, with the events it
produces. -/
theorem C4_enet_init_once_released_never_witness :
    (((launchClient EngineStatus.Ok),
        [Event.enetInitialize, Event.serverLaunch 20000,
         Event.clientLaunch, Event.clientLaunch]) : Int × List Event).2.count
        Event.enetDeinitialize = 0 :=
  (C4_enet_init_once_released_never
    ⟨true, .Ok, [], .Ok, .Ok⟩ [] _ rfl).2.2

/-- C5 counterexample: the argument list `["-client"]` contains the
`-client` flag, but `main` only pairs a flag that has a following
argument, so the flag is dropped, the parsed launch type stays
`TwoPlayer`, and the program runs the server-plus-two-clients test mode
instead of client-only mode. -/
theorem C5_trailing_client_flag_dropped :
    buildArgs ["-client"] = [] ∧
    parseArgs defaultConfig (buildArgs ["-client"]) =
      .ok (defaultConfig, []) ∧
    defaultConfig.launchType = LaunchType.TwoPlayer ∧
    LaunchType.TwoPlayer ≠ LaunchType.Client ∧
    mainRun ⟨true, .Ok, [], .Ok, .Ok⟩ ["-client"] =
      some (launchClient EngineStatus.Ok,
        [Event.enetInitialize, Event.serverLaunch 20000,
         Event.clientLaunch, Event.clientLaunch]) :=
  ⟨rfl, rfl, rfl, by decide, rfl⟩

/-- C5 (amended): if `-client` occurs among the built `(flag, param)`
pairs (that is, it is followed by at least one further argument) and no
`-server` pair occurs after it, then whenever parsing completes the
parsed launch type is `Client`. -/
theorem C5_client_flag_selects_client_mode (c : Config)
    (argv : List String) (x : String) (l1 l2 : List (String × String))
    (r : Config × List String)
    (hsplit : buildArgs argv = l1 ++ ("-client", x) :: l2)
    (hnoserver : ∀ p ∈ l2, p.1 ≠ "-server")
    (hok : parseArgs c (buildArgs argv) = .ok r) :
    r.1.launchType = .Client := by
  unfold parseArgs at hok
  rw [hsplit, parseArgsFrom_append] at hok
  rcases h1 : parseArgsFrom c [] l1 with e | ⟨c1, log1⟩
  · rw [h1] at hok
    cases hok
  · rw [h1] at hok
    have hok' : parseArgsFrom { c1 with launchType := .Client } log1 l2 =
        .ok r := hok
    exact parseArgsFrom_keeps_client l2 hnoserver _ _ _ rfl hok'

/-- C5 witness: `-client x` with nothing after it parses to launch type
`Client`. -/
theorem C5_client_flag_selects_client_mode_witness :
    (({ defaultConfig with launchType := LaunchType.Client },
        ([] : List String)) : Config × List String).1.launchType =
      LaunchType.Client :=
  C5_client_flag_selects_client_mode defaultConfig ["-client", "x"] "x"
    [] [] _ (by rfl) (by simp) (by rfl)

/-- C6: with neither `-server` nor `-client` among the arguments, and
whatever `config.txt` contains, `main` runs the local test mode: one
server thread with a 20000 ms timeout plus two client threads, the exit
code being the primary client's. -/
theorem C6_default_runs_two_player_test_mode (env : EngineEnv)
    (argv : List String) (henet : env.enetInitOk = true)
    (hs : "-server" ∉ argv) (hc : "-client" ∉ argv) :
    mainRun env argv =
      some (launchClient env.clientStatus,
        [Event.enetInitialize, Event.serverLaunch 20000,
         Event.clientLaunch, Event.clientLaunch]) := by
  have hflags : ∀ p ∈ buildArgs argv, p.1 ≠ "-server" ∧ p.1 ≠ "-client" := by
    intro p hp
    have hmem := buildArgs_mem argv p hp
    refine ⟨fun he => hs ?_, fun he => hc ?_⟩
    · rw [he] at hmem
      exact hmem
    · rw [he] at hmem
      exact hmem
  obtain ⟨c', log', h1, h2⟩ := parseArgsFrom_no_flags (buildArgs argv)
    hflags (loadFromConfigFile env.configTokens defaultConfig) []
  have hlt : c'.launchType = LaunchType.TwoPlayer := by
    rw [h2, loadFromConfigFile_launchType]
    rfl
  unfold mainRun
  rw [henet]
  simp only [Bool.true_eq_false, if_false]
  unfold parseArgs
  rw [h1]
  simp only [hlt]
  rfl

/-- C6 witness: a run with a `-skin` option and a config file, which
still selects the two-player test mode. -/
theorem C6_default_runs_two_player_test_mode_witness :
    mainRun ⟨true, .Ok, ["WORLD_SIZE", "256"], .Ok, .Ok⟩ ["-skin", "bob"] =
      some (launchClient EngineStatus.Ok,
        [Event.enetInitialize, Event.serverLaunch 20000,
         Event.clientLaunch, Event.clientLaunch]) :=
  C6_default_runs_two_player_test_mode _ _ rfl (by decide) (by decide)

/-- C7: Endpoint equality is reflexive, symmetric and transitive, holds
iff the numeric addresses and the numeric ports agree, and identifies
Endpoints built from different textual forms of the same address. -/
theorem C7_endpoint_equality :
    (∀ e : Endpoint, endpointEq e e = true) ∧
    (∀ a b : Endpoint, endpointEq a b = endpointEq b a) ∧
    (∀ a b c : Endpoint, endpointEq a b = true → endpointEq b c = true →
      endpointEq a c = true) ∧
    (∀ a b : Endpoint, endpointEq a b = true ↔
      (a.address.toInteger = b.address.toInteger ∧ a.port = b.port)) ∧
    ("127.0.0.1" ≠ "127.000.000.001" ∧
      endpointEq ⟨IpAddress.fromString "127.0.0.1", 55555⟩
        ⟨IpAddress.fromString "127.000.000.001", 55555⟩ = true) := by
  have hchar : ∀ a b : Endpoint, endpointEq a b = true ↔
      (a.address.toInteger = b.address.toInteger ∧ a.port = b.port) := by
    intro a b
    simp [endpointEq, and_comm]
  refine ⟨?_, ?_, ?_, hchar, by decide, by decide⟩
  · intro e
    exact (hchar e e).mpr ⟨rfl, rfl⟩
  · intro a b
    by_cases h : endpointEq a b = true
    · obtain ⟨h1, h2⟩ := (hchar a b).mp h
      rw [h, (hchar b a).mpr ⟨h1.symm, h2.symm⟩]
    · have h' : ¬ endpointEq b a = true := fun hba => by
        obtain ⟨h1, h2⟩ := (hchar b a).mp hba
        exact h ((hchar a b).mpr ⟨h1.symm, h2.symm⟩)
      rw [Bool.not_eq_true] at h h'
      rw [h, h']
  · intro a b c hab hbc
    obtain ⟨h1, h2⟩ := (hchar a b).mp hab
    obtain ⟨h3, h4⟩ := (hchar b c).mp hbc
    exact (hchar a c).mpr ⟨h1.trans h3, h2.trans h4⟩

/-- C7 witness: transitivity applied at concrete Endpoints. -/
theorem C7_endpoint_equality_witness :
    endpointEq ⟨⟨2130706433⟩, 80⟩ ⟨IpAddress.fromString "127.0.0.1", 80⟩ =
      true :=
  C7_endpoint_equality.2.2.1 ⟨⟨2130706433⟩, 80⟩ ⟨⟨2130706433⟩, 80⟩
    ⟨IpAddress.fromString "127.0.0.1", 80⟩ (by decide) (by decide)

/-- C8: `WORLD_SIZE 256` sets the world size to 256 and changes nothing
else; the unrecognized line `FOO bar` is ignored without error (a
recognized key after it is still processed); and a key that does not
occur in the file (not even as a trailing part of a token) leaves its
option at the value the caller passed in. -/
theorem C8_config_file_reads_key_value_pairs :
    (∀ c : Config, loadFromConfigFile ["WORLD_SIZE", "256"] c =
      { c with serverOptions := { c.serverOptions with worldSize := 256 } }) ∧
    (∀ c : Config, loadFromConfigFile ["FOO", "bar"] c = c) ∧
    (∀ c : Config, loadFromConfigFile ["FOO", "bar", "WORLD_SIZE", "256"] c =
      { c with serverOptions := { c.serverOptions with worldSize := 256 } }) ∧
    (∀ (tokens : List String) (c : Config),
      KeyAbsent "FULLSCREEN" tokens →
        (loadFromConfigFile tokens c).clientOptions.fullScreen =
          c.clientOptions.fullScreen) ∧
    (∀ (tokens : List String) (c : Config),
      KeyAbsent "WIN_WIDTH" tokens →
        (loadFromConfigFile tokens c).clientOptions.windowWidth =
          c.clientOptions.windowWidth) ∧
    (∀ (tokens : List String) (c : Config),
      KeyAbsent "WIN_HEIGHT" tokens →
        (loadFromConfigFile tokens c).clientOptions.windowHeight =
          c.clientOptions.windowHeight) ∧
    (∀ (tokens : List String) (c : Config),
      KeyAbsent "FPS_CAPPED" tokens →
        (loadFromConfigFile tokens c).clientOptions.isFpsCapped =
          c.clientOptions.isFpsCapped) ∧
    (∀ (tokens : List String) (c : Config),
      KeyAbsent "FPS" tokens →
        (loadFromConfigFile tokens c).clientOptions.fpsLimit =
          c.clientOptions.fpsLimit) ∧
    (∀ (tokens : List String) (c : Config),
      KeyAbsent "FOV" tokens →
        (loadFromConfigFile tokens c).clientOptions.fov =
          c.clientOptions.fov) ∧
    (∀ (tokens : List String) (c : Config),
      KeyAbsent "SKIN" tokens →
        (loadFromConfigFile tokens c).clientOptions.skinName =
          c.clientOptions.skinName) ∧
    (∀ (tokens : List String) (c : Config),
      KeyAbsent "WORLD_HEIGHT" tokens →
        (loadFromConfigFile tokens c).serverOptions.worldHeight =
          c.serverOptions.worldHeight) ∧
    (∀ (tokens : List String) (c : Config),
      KeyAbsent "WORLD_SIZE" tokens →
        (loadFromConfigFile tokens c).serverOptions.worldSize =
          c.serverOptions.worldSize) :=
  ⟨fun _ => rfl, fun _ => rfl, fun _ => rfl,
   loadFromConfigFile_keeps_fullScreen,
   loadFromConfigFile_keeps_windowWidth,
   loadFromConfigFile_keeps_windowHeight,
   loadFromConfigFile_keeps_isFpsCapped,
   loadFromConfigFile_keeps_fpsLimit,
   loadFromConfigFile_keeps_fov,
   loadFromConfigFile_keeps_skinName,
   loadFromConfigFile_keeps_worldHeight,
   loadFromConfigFile_keeps_worldSize⟩

/-- C8 witness: the absent-key clause applied at a concrete file. -/
theorem C8_config_file_reads_key_value_pairs_witness :
    (loadFromConfigFile ["WORLD_SIZE", "256"]
      defaultConfig).clientOptions.fullScreen =
      defaultConfig.clientOptions.fullScreen :=
  C8_config_file_reads_key_value_pairs.2.2.2.1 ["WORLD_SIZE", "256"]
    defaultConfig (by unfold KeyAbsent; decide)

/-- C9: when the value after `WIN_WIDTH` fails integer extraction, the
stream enters a failed state, the failed extraction stores 0 into the
window width (C++11), the loop exits, and every remaining token —
well-formed or not — is skipped, so every later option keeps the value
the caller passed in. -/
theorem C9_failed_extraction_skips_remainder (v : String)
    (rest : List String) (c : Config)
    (hv : intFromChars v.data = none) :
    loadFromConfigFile ("WIN_WIDTH" :: v :: rest) c =
      { c with clientOptions :=
          { c.clientOptions with windowWidth := 0 } } :=
  loadLoop_win_width_fail _ v rest c hv

/-- C9 witness: `WIN_WIDTH abc` followed by a well-formed
`WORLD_SIZE 999` still leaves the world size untouched. -/
theorem C9_failed_extraction_skips_remainder_witness :
    loadFromConfigFile ["WIN_WIDTH", "abc", "WORLD_SIZE", "999"]
      defaultConfig =
      { defaultConfig with clientOptions :=
          { defaultConfig.clientOptions with windowWidth := 0 } } :=
  C9_failed_extraction_skips_remainder "abc" ["WORLD_SIZE", "999"]
    defaultConfig rfl

/-- C10: in the multi-instance modes the process exit code is the
primary client's alone: `launchServer` returns `EXIT_SUCCESS` whatever
the server engine did, and the second client's code is discarded after
the join. -/
theorem C10_exit_code_is_primary_client (env : EngineEnv) (t : Int) :
    launchServer env.serverOutcome t = EXIT_SUCCESS ∧
    (launchBoth env).1 = launchClient env.clientStatus ∧
    (launchServerAnd2Players env).1 = launchClient env.clientStatus :=
  ⟨rfl, rfl, rfl⟩

end OpenBuilder
